import Mathlib

/-!
Verification of the outbound voice campaign dispatch engine.

The Go sources are shallowly embedded: pure helpers become Lean
functions; stateful handlers become functions from an explicit
environment and state to effect records.  Machine integers are
modelled by Int or Nat; the int64 time.Duration arithmetic of the
backoff computation carries an explicit two's-complement wrap at
each multiplication and addition, instants are abstract integers,
and float arithmetic in the backoff computation is modelled over
the rationals with explicit truncation toward zero at each
float-to-Duration conversion.
-/

namespace OutboundCampaign

/-! Section: Business hours (internal/scheduler: isWithinBusinessHours) -/

/-- A campaign business-hour window, already reduced to minutes:
the Go code computes window.Start.Hour()*60 + window.Start.Minute()
(and likewise for End), so a window is (day-of-week, startMinute,
endMinute). -/
structure BusinessHourWindow where
  dayOfWeek : ℕ
  startMinute : ℕ
  endMinute : ℕ
deriving DecidableEq, Repr

/-- One window test from the loop body of isWithinBusinessHours.
Arguments d and m are the local weekday (0 = Sunday) and the local
minute of day of the instant being tested. -/
def windowMatches (d m : ℕ) (w : BusinessHourWindow) : Bool :=
  if w.endMinute ≤ w.startMinute then
    -- window spans midnight
    (w.dayOfWeek == d && m ≥ w.startMinute) ||
    ((w.dayOfWeek + 1) % 7 == d && m < w.endMinute)
  else
    w.dayOfWeek == d && m ≥ w.startMinute && m < w.endMinute

/-- Shallow embedding of isWithinBusinessHours.  The timezone
conversion is abstracted: tzValid says whether time.LoadLocation
succeeded, and d, m are the weekday and minute-of-day of the
instant in the campaign local time.  The Go loop returns true at
the first matching window and false after the loop, which is
List.any. -/
def isWithinBusinessHours (windows : List BusinessHourWindow)
    (tzValid : Bool) (d m : ℕ) : Bool :=
  if windows.isEmpty then true
  else if !tzValid then true
  else windows.any (windowMatches d m)

/-- Modelled from the spec: the within-window reference predicate
of section 4.1, written directly from the spec words.  Same-day
window (end > start) passes iff d = day and start ≤ m < end; a
midnight-spanning window (end ≤ start) passes iff (d = day and
m ≥ start) or (d = (day+1) mod 7 and m < end); empty window list
always passes; invalid timezone always passes. -/
def specWithinWindow (windows : List BusinessHourWindow)
    (tzValid : Bool) (d m : ℕ) : Bool :=
  if windows = [] then true
  else if tzValid = false then true
  else windows.any (fun w =>
    if w.endMinute > w.startMinute then
      decide (d = w.dayOfWeek ∧ w.startMinute ≤ m ∧ m < w.endMinute)
    else
      decide ((d = w.dayOfWeek ∧ m ≥ w.startMinute) ∨
        (d = (w.dayOfWeek + 1) % 7 ∧ m < w.endMinute)))

theorem windowMatches_eq_spec (d m : ℕ) (w : BusinessHourWindow) :
    windowMatches d m w =
      (if w.endMinute > w.startMinute then
        decide (d = w.dayOfWeek ∧ w.startMinute ≤ m ∧ m < w.endMinute)
      else
        decide ((d = w.dayOfWeek ∧ m ≥ w.startMinute) ∨
          (d = (w.dayOfWeek + 1) % 7 ∧ m < w.endMinute))) := by
  unfold windowMatches
  rcases Nat.lt_or_ge w.startMinute w.endMinute with h | h
  · rw [if_neg (Nat.not_le.mpr h), if_pos h]
    apply Bool.eq_iff_iff.mpr
    simp only [Bool.and_eq_true, Bool.or_eq_true, beq_iff_eq,
      decide_eq_true_eq, ge_iff_le]
    tauto
  · rw [if_pos h, if_neg (Nat.not_lt.mpr h)]
    apply Bool.eq_iff_iff.mpr
    simp only [Bool.and_eq_true, Bool.or_eq_true, beq_iff_eq,
      decide_eq_true_eq, ge_iff_le]
    tauto

/-- Claim C7: the implemented within-window predicate equals the
reference definition from the spec for every window list, timezone
validity and local instant; and on the Monday 22:00 to 02:00
window it passes Monday 23:59 and Tuesday 01:59 and fails
Tuesday 02:00 and Monday 21:59. -/
theorem withinBusinessHours_eq_spec :
    (∀ (windows : List BusinessHourWindow) (tzValid : Bool) (d m : ℕ),
      isWithinBusinessHours windows tzValid d m =
        specWithinWindow windows tzValid d m) ∧
    (let monNight : List BusinessHourWindow := [⟨1, 1320, 120⟩]
     isWithinBusinessHours monNight true 1 1439 = true ∧
     isWithinBusinessHours monNight true 2 119 = true ∧
     isWithinBusinessHours monNight true 2 120 = false ∧
     isWithinBusinessHours monNight true 1 1319 = false) := by
  constructor
  · intro windows tzValid d m
    rcases windows with _ | ⟨w, ws⟩
    · cases tzValid <;> rfl
    · cases tzValid
      · rfl
      · have hfun : windowMatches d m = fun v =>
            (if v.endMinute > v.startMinute then
              decide (d = v.dayOfWeek ∧ v.startMinute ≤ m ∧ m < v.endMinute)
            else
              decide ((d = v.dayOfWeek ∧ m ≥ v.startMinute) ∨
                (d = (v.dayOfWeek + 1) % 7 ∧ m < v.endMinute))) :=
          funext (fun v => windowMatches_eq_spec d m v)
        have h1 : isWithinBusinessHours (w :: ws) true d m =
            (w :: ws).any (windowMatches d m) := rfl
        have h2 : specWithinWindow (w :: ws) true d m =
            (w :: ws).any (fun v =>
              if v.endMinute > v.startMinute then
                decide (d = v.dayOfWeek ∧ v.startMinute ≤ m ∧ m < v.endMinute)
              else
                decide ((d = v.dayOfWeek ∧ m ≥ v.startMinute) ∨
                  (d = (v.dayOfWeek + 1) % 7 ∧ m < v.endMinute))) := rfl
        rw [h1, h2, hfun]
  · refine ⟨by decide, by decide, by decide, by decide⟩

/-! Section: Campaign target repository
(internal/repository/postgres/target_repository.go) -/

/-- A row of the campaign_targets table.  Ids and campaign ids are
opaque UUIDs, modelled as naturals; created and scheduled instants
are abstract integers. -/
structure TargetRow where
  id : ℕ
  campaignId : ℕ
  phone : String
  state : String
  createdAt : ℤ
  scheduledAt : Option ℤ
deriving DecidableEq, Repr

/-- NextBatchForScheduling: SELECT rows of the campaign with state
pending, ORDER BY created_at ASC, LIMIT the given limit (defaulted
to 100 when not positive).  The table is modelled as already held
in created_at ascending order, so ORDER BY is the table order. -/
def nextBatchForScheduling (tbl : List TargetRow) (cid : ℕ) (limit : ℤ) : List TargetRow :=
  let lim := if limit ≤ 0 then 100 else limit
  ((tbl.filter (fun t => t.campaignId == cid && t.state == "pending")).take lim.toNat)

/-- MarkScheduled: UPDATE campaign_targets SET state = queued,
scheduled_at = $1 WHERE campaign_id = $2 AND id = ANY($3).  The SQL
carries no filter on the current state.  An empty id list is a
no-op. -/
def markScheduled (tbl : List TargetRow) (cid : ℕ) (ids : List ℕ) (at_ : ℤ) : List TargetRow :=
  if ids.isEmpty then tbl
  else tbl.map (fun t =>
    if t.campaignId == cid && ids.contains t.id then
      { t with state := "queued", scheduledAt := some at_ }
    else t)

/-- SetState: UPDATE campaign_targets SET state = $1 WHERE
campaign_id = $2 AND id = ANY($3); again no filter on the current
state. -/
def setState (tbl : List TargetRow) (cid : ℕ) (ids : List ℕ) (st : String) : List TargetRow :=
  if ids.isEmpty then tbl
  else tbl.map (fun t =>
    if t.campaignId == cid && ids.contains t.id then { t with state := st } else t)

/-! Section: Scheduler tick (src/unnamed scheduler.go variant with the
retry fairness gate: Scheduler.tick, Scheduler.hasPendingRetries) -/

/-- One in-progress campaign as the tick sees it, with the
timezone conversion of nowUTC abstracted into the local weekday
and minute of day. -/
structure SchedCampaign where
  id : ℕ
  windows : List BusinessHourWindow
  tzValid : Bool
  localDay : ℕ
  localMinute : ℕ

/-- Environment of one tick: per retry tier whether the probe
finds a pending message, the in-progress campaigns, the target
table, the batch size, which target ids fail TriggerCall, and the
current instant. -/
structure SchedEnv where
  retryTierHasMessage : List Bool
  campaigns : List SchedCampaign
  targetTable : List TargetRow
  maxBatchSize : ℤ
  triggerFails : ℕ → Bool
  now : ℤ

/-- Scheduler.hasPendingRetries probes each configured retry topic
and reports true as soon as any probe fetches a message. -/
def hasPendingRetries (env : SchedEnv) : Bool :=
  env.retryTierHasMessage.any id

/-- Observable effects of one tick: the target ids passed to
MarkScheduled (claimed), the ids whose TriggerCall published a
dispatch, and the final target table. -/
structure TickEffects where
  claimed : List ℕ
  dispatched : List ℕ
  table : List TargetRow
deriving DecidableEq, Repr

/-- Per-campaign body of the tick loop: skip when outside business
hours; fetch the pending batch; claim it via MarkScheduled;
trigger each target, collecting failures; revert failed targets to
pending via SetState. -/
def tickCampaign (env : SchedEnv) (tbl : List TargetRow) (c : SchedCampaign) :
    List ℕ × List ℕ × List TargetRow :=
  if !isWithinBusinessHours c.windows c.tzValid c.localDay c.localMinute then
    ([], [], tbl)
  else
    let targets := nextBatchForScheduling tbl c.id env.maxBatchSize
    if targets.isEmpty then ([], [], tbl)
    else
      let ids := targets.map (·.id)
      let tbl1 := markScheduled tbl c.id ids env.now
      let failed := (targets.filter (fun t => env.triggerFails t.id)).map (·.id)
      let ok := (targets.filter (fun t => !env.triggerFails t.id)).map (·.id)
      let tbl2 := if failed.isEmpty then tbl1 else setState tbl1 c.id failed ("pending")
      (ids, ok, tbl2)

/-- Sequential processing of the fetched campaigns, threading the
target table. -/
def tickLoop (env : SchedEnv) : List SchedCampaign → List TargetRow → TickEffects
  | [], tbl => ⟨[], [], tbl⟩
  | c :: cs, tbl =>
    let step := tickCampaign env tbl c
    let rest := tickLoop env cs step.2.2
    ⟨step.1 ++ rest.claimed, step.2.1 ++ rest.dispatched, rest.table⟩

/-- Scheduler.tick: the retry fairness gate runs first; when any
retry tier has a pending message the tick returns before loading
campaigns, claiming targets or dispatching anything. -/
def tick (env : SchedEnv) : TickEffects :=
  if hasPendingRetries env then ⟨[], [], env.targetTable⟩
  else tickLoop env env.campaigns env.targetTable

/-- Claim C1: whenever any retry tier topic has a pending message,
the scheduler tick claims no targets, publishes no dispatches, and
leaves the target table unchanged, for every environment. -/
theorem tick_aborts_on_pending_retries (env : SchedEnv)
    (h : hasPendingRetries env = true) :
    (tick env).claimed = [] ∧ (tick env).dispatched = [] ∧
      (tick env).table = env.targetTable := by
  unfold tick
  rw [h]
  exact ⟨rfl, rfl, rfl⟩

/-- Witness for C1: one message sitting in the first retry tier,
one in-progress 24x7 campaign with pending targets available; the
tick emits nothing. -/
theorem tick_aborts_on_pending_retries_witness :
    (hasPendingRetries
        ⟨[true], [⟨7, [], true, 1, 600⟩],
          [⟨1, 7, "p1", "pending", 0, none⟩, ⟨2, 7, "p2", "pending", 1, none⟩],
          100, fun _ => false, 50⟩ = true) ∧
      ((tick ⟨[true], [⟨7, [], true, 1, 600⟩],
          [⟨1, 7, "p1", "pending", 0, none⟩, ⟨2, 7, "p2", "pending", 1, none⟩],
          100, fun _ => false, 50⟩).claimed = [] ∧
        (tick ⟨[true], [⟨7, [], true, 1, 600⟩],
          [⟨1, 7, "p1", "pending", 0, none⟩, ⟨2, 7, "p2", "pending", 1, none⟩],
          100, fun _ => false, 50⟩).dispatched = [] ∧
        (tick ⟨[true], [⟨7, [], true, 1, 600⟩],
          [⟨1, 7, "p1", "pending", 0, none⟩, ⟨2, 7, "p2", "pending", 1, none⟩],
          100, fun _ => false, 50⟩).table =
          [⟨1, 7, "p1", "pending", 0, none⟩, ⟨2, 7, "p2", "pending", 1, none⟩]) :=
  ⟨rfl, tick_aborts_on_pending_retries _ rfl⟩

/-- Counterexample for C4: the UPDATE behind MarkScheduled has no
filter on the current state, so a target already in state done is
moved to queued when its id is passed in, and the revert path's
SetState likewise moves a failed target back to pending. -/
theorem markScheduled_moves_done_target :
    markScheduled [⟨1, 7, "p", "done", 0, none⟩] 7 [1] 5 =
      [⟨1, 7, "p", "queued", 0, some 5⟩] ∧
    setState [⟨2, 7, "q", "failed", 0, none⟩] 7 [2] "pending" =
      [⟨2, 7, "q", "pending", 0, none⟩] := by
  exact ⟨by decide, by decide⟩

/-- Claim C4 (amended): MarkScheduled moves every target of the
campaign whose id is listed to queued regardless of its current
state (including done and failed), and SetState rewrites the state
of every listed target unconditionally; the pending-to-queued
discipline holds only when the caller passes ids of targets that
are currently pending, in which case every state change performed
by MarkScheduled is pending to queued. -/
theorem markScheduled_setState_behavior :
    (∀ (tbl : List TargetRow) (cid : ℕ) (ids : List ℕ) (at_ : ℤ),
      ∀ t ∈ tbl, t.campaignId = cid → t.id ∈ ids →
        ({ t with state := "queued", scheduledAt := some at_ } : TargetRow) ∈
          markScheduled tbl cid ids at_) ∧
    (∀ (tbl : List TargetRow) (cid : ℕ) (ids : List ℕ) (at_ : ℤ),
      (∀ t ∈ tbl, t.campaignId = cid → t.id ∈ ids → t.state = "pending") →
      List.Forall₂ (fun t u => u.state ≠ t.state →
          t.state = "pending" ∧ u.state = "queued")
        tbl (markScheduled tbl cid ids at_)) ∧
    (∀ (tbl : List TargetRow) (cid : ℕ) (ids : List ℕ) (st : String),
      List.Forall₂ (fun t u => u = t ∨ u = { t with state := st })
        tbl (setState tbl cid ids st)) := by
  refine ⟨?_, ?_, ?_⟩
  · intro tbl cid ids at_ t ht hcid hid
    unfold markScheduled
    have hne : ids.isEmpty = false := by
      cases ids with
      | nil => cases hid
      | cons a l => rfl
    rw [hne]
    simp only [Bool.false_eq_true, if_false]
    have hcond : (t.campaignId == cid && ids.contains t.id) = true := by
      simp [hcid, hid]
    refine List.mem_map.mpr ⟨t, ht, ?_⟩
    rw [hcond]
    simp
  · intro tbl cid ids at_ hpend
    unfold markScheduled
    cases hids : ids.isEmpty
    · simp only [Bool.false_eq_true, if_false]
      rw [List.forall₂_map_right_iff]
      rw [List.forall₂_same]
      intro t ht
      by_cases hc : (t.campaignId == cid && ids.contains t.id) = true
      · rw [if_pos hc]
        intro _
        simp only [Bool.and_eq_true, beq_iff_eq] at hc
        exact ⟨hpend t ht hc.1 (List.mem_of_elem_eq_true hc.2), rfl⟩
      · rw [if_neg hc]
        intro hne
        exact absurd rfl hne
    · simp only [if_true]
      rw [List.forall₂_same]
      intro t _ hne
      exact absurd rfl hne
  · intro tbl cid ids st
    unfold setState
    cases hids : ids.isEmpty
    · simp only [Bool.false_eq_true, if_false]
      rw [List.forall₂_map_right_iff, List.forall₂_same]
      intro t _
      by_cases hc : (t.campaignId == cid && ids.contains t.id) = true
      · rw [if_pos hc]; exact Or.inr rfl
      · rw [if_neg hc]; exact Or.inl rfl
    · simp only [if_true]
      rw [List.forall₂_same]
      intro t _
      exact Or.inl rfl

/-- Witness for C4 (amended): a pending target claimed by
MarkScheduled, and the Forall₂ facts instantiated at one-row
tables. -/
theorem markScheduled_setState_behavior_witness :
    (⟨1, 7, "p", "queued", 0, some 5⟩ : TargetRow) ∈
        markScheduled [⟨1, 7, "p", "pending", 0, none⟩] 7 [1] 5 ∧
      List.Forall₂ (fun t u => u.state ≠ t.state →
          t.state = "pending" ∧ u.state = "queued")
        [(⟨1, 7, "p", "pending", 0, none⟩ : TargetRow)]
        (markScheduled [⟨1, 7, "p", "pending", 0, none⟩] 7 [1] 5) ∧
      List.Forall₂ (fun t u => u = t ∨ u = { t with state := "pending" })
        [(⟨2, 7, "q", "queued", 0, none⟩ : TargetRow)]
        (setState [⟨2, 7, "q", "queued", 0, none⟩] 7 [2] "pending") :=
  ⟨markScheduled_setState_behavior.1 [⟨1, 7, "p", "pending", 0, none⟩] 7 [1] 5
      ⟨1, 7, "p", "pending", 0, none⟩ (by simp) rfl (by simp),
    markScheduled_setState_behavior.2.1 [⟨1, 7, "p", "pending", 0, none⟩] 7 [1] 5
      (by intro t ht _ _; simp at ht; rw [ht]),
    markScheduled_setState_behavior.2.2 [⟨2, 7, "q", "queued", 0, none⟩] 7 [2] "pending"⟩

/-! Section: Campaign lifecycle (internal/service/campaign/service.go:
Start, Pause, Complete) -/

inductive CampaignStatus
  | pending
  | inProgress
  | paused
  | completed
  | failed
deriving DecidableEq, Repr

/-- The slice of a campaign row the lifecycle operations touch. -/
structure Campaign where
  status : CampaignStatus
  startedAt : Option ℤ
  completedAt : Option ℤ
deriving DecidableEq, Repr

/-- Service.Start: an in-progress campaign returns nil without
update; a completed campaign is rejected; otherwise status becomes
in_progress with started_at set. -/
def startCampaign (c : Campaign) (now : ℤ) : Except String Campaign :=
  if c.status = .inProgress then .ok c
  else if c.status = .completed then
    .error ("campaign service: cannot start completed campaign")
  else .ok { c with status := .inProgress, startedAt := some now }

/-- Service.Pause: unconditionally sets status paused and
updates. -/
def pauseCampaign (c : Campaign) : Except String Campaign :=
  .ok { c with status := .paused }

/-- Service.Complete: unconditionally sets status completed with a
fresh completed_at and updates. -/
def completeCampaign (c : Campaign) (now : ℤ) : Except String Campaign :=
  .ok { c with status := .completed, completedAt := some now }

/-- Counterexample for C5: Pause on a completed campaign does not
return an error; it succeeds and moves the campaign to paused, and
Complete on a completed campaign succeeds and rewrites
completed_at, so the campaign does not stay unchanged. -/
theorem pause_complete_accept_completed :
    pauseCampaign ⟨.completed, none, some 3⟩ =
      .ok ⟨.paused, none, some 3⟩ ∧
    completeCampaign ⟨.completed, none, some 3⟩ 9 =
      .ok ⟨.completed, none, some 9⟩ := by
  exact ⟨rfl, rfl⟩

/-- Claim C5 (amended): only Start guards the completed state:
Start on a completed campaign errors and changes nothing, Start on
an in-progress campaign is an idempotent no-op, Start otherwise
moves the campaign to in_progress; Pause succeeds from every
status (including completed) setting paused, and Complete succeeds
from every status, rewriting status and completed_at. -/
theorem campaign_lifecycle_behavior :
    (∀ (c : Campaign) (now : ℤ), c.status = .completed →
      startCampaign c now =
        .error ("campaign service: cannot start completed campaign")) ∧
    (∀ (c : Campaign) (now : ℤ), c.status = .inProgress →
      startCampaign c now = .ok c) ∧
    (∀ (c : Campaign) (now : ℤ), c.status ≠ .completed →
      c.status ≠ .inProgress →
      startCampaign c now =
        .ok { c with status := .inProgress, startedAt := some now }) ∧
    (∀ c : Campaign, pauseCampaign c = .ok { c with status := .paused }) ∧
    (∀ (c : Campaign) (now : ℤ), completeCampaign c now =
      .ok { c with status := .completed, completedAt := some now }) := by
  refine ⟨?_, ?_, ?_, fun _ => rfl, fun _ _ => rfl⟩
  · intro c now hc
    unfold startCampaign
    rw [if_neg (by rw [hc]; intro h; cases h), if_pos hc]
  · intro c now hc
    unfold startCampaign
    rw [if_pos hc]
  · intro c now hcomp hprog
    unfold startCampaign
    rw [if_neg hprog, if_neg hcomp]

/-- Witness for C5 (amended): the lifecycle facts instantiated at
concrete campaigns. -/
theorem campaign_lifecycle_behavior_witness :
    startCampaign ⟨.completed, none, some 1⟩ 4 =
      .error ("campaign service: cannot start completed campaign") ∧
    startCampaign ⟨.inProgress, some 0, none⟩ 4 =
      .ok ⟨.inProgress, some 0, none⟩ ∧
    startCampaign ⟨.pending, none, none⟩ 4 =
      .ok ⟨.inProgress, some 4, none⟩ :=
  ⟨campaign_lifecycle_behavior.1 ⟨.completed, none, some 1⟩ 4 rfl,
    campaign_lifecycle_behavior.2.1 ⟨.inProgress, some 0, none⟩ 4 rfl,
    campaign_lifecycle_behavior.2.2.1 ⟨.pending, none, none⟩ 4
      (by intro h; cases h) (by intro h; cases h)⟩

/-! Section: Campaign statistics deltas
(internal/repository/postgres/statistics_repository.go: ApplyDelta) -/

/-- Atomic additive deltas against the campaign_statistics row. -/
structure StatsDelta where
  total : ℤ
  completed : ℤ
  failed : ℤ
  inProgress : ℤ
  pending : ℤ
  retries : ℤ
deriving DecidableEq, Repr

def zeroDelta : StatsDelta := ⟨0, 0, 0, 0, 0, 0⟩

/-- One campaign_statistics row of counters. -/
structure Stats where
  total : ℤ
  completed : ℤ
  failed : ℤ
  inProgress : ℤ
  pending : ℤ
  retries : ℤ
deriving DecidableEq, Repr

/-- CampaignStatisticsRepository.ApplyDelta: a single UPDATE adding
each delta to its counter. -/
def applyDelta (s : Stats) (d : StatsDelta) : Stats :=
  ⟨s.total + d.total, s.completed + d.completed, s.failed + d.failed,
    s.inProgress + d.inProgress, s.pending + d.pending, s.retries + d.retries⟩

/-! Section: Call service (internal/service/call/service.go: TriggerCall,
validatePhoneInCampaignTargets) -/

/-- The call row TriggerCall persists (status queued, zero
attempts, scheduled now). -/
structure CallRow where
  id : ℕ
  campaignId : ℕ
  phone : String
  status : String
  attemptCount : ℤ
  scheduledAt : ℤ
deriving DecidableEq, Repr

/-- External collaborators of TriggerCall: whether the campaign
lookup succeeds, the campaign's registered target phone numbers in
created_at ascending order, and whether DispatchCall succeeds. -/
structure CallSvcEnv where
  campaignExists : Bool
  targets : List String
  dispatchOk : Bool

/-- Stores TriggerCall writes to: call rows, the stats row, and
the ids of the dispatch messages published. -/
structure CallSvcState where
  calls : List CallRow
  stats : Stats
  dispatched : List ℕ
deriving DecidableEq, Repr

/-- validatePhoneInCampaignTargets: lists the campaign targets via
ListByCampaign with limit 10000 and no state filter (so at most
the first 10000 targets in created_at order are fetched), rejects
when that page is empty, accepts iff the phone appears on it. -/
def validatePhoneInCampaignTargets (targets : List String) (phone : String) :
    Except String Unit :=
  if (targets.take 10000).length = 0 then
    .error ("validation: campaign has no registered targets")
  else if (targets.take 10000).contains phone then .ok ()
  else .error ("validation: phone number is not part of the registered target list")

/-- Service.TriggerCall: validate the phone, look up the campaign,
validate membership in the target list, persist the call row,
apply the delta with total and pending both plus one, publish the
dispatch; on publish failure apply a compensating pending minus
one (when the campaign id is not nil) and return the error,
leaving the call row and the total counter as they were after the
first two writes. -/
def triggerCall (env : CallSvcEnv) (st : CallSvcState) (cid : ℕ) (phone : String)
    (newId : ℕ) (now : ℤ) : CallSvcState × Except String CallRow :=
  if phone = "" then (st, .error ("validation: phone number is required"))
  else if !env.campaignExists then (st, .error ("call service: lookup campaign"))
  else
    match validatePhoneInCampaignTargets env.targets phone with
    | .error e => (st, .error e)
    | .ok _ =>
      let call : CallRow := ⟨newId, cid, phone, "queued", 0, now⟩
      let st1 : CallSvcState := { st with calls := st.calls ++ [call] }
      let st2 : CallSvcState :=
        { st1 with stats := applyDelta st1.stats { zeroDelta with total := 1, pending := 1 } }
      if env.dispatchOk then
        ({ st2 with dispatched := st2.dispatched ++ [newId] }, .ok call)
      else
        let st3 : CallSvcState :=
          if cid ≠ 0 then
            { st2 with stats := applyDelta st2.stats { zeroDelta with pending := -1 } }
          else st2
        (st3, .error ("call service: dispatch call"))

theorem validatePhone_ok_iff (targets : List String) (phone : String) :
    validatePhoneInCampaignTargets targets phone = .ok () ↔
      phone ∈ targets.take 10000 := by
  unfold validatePhoneInCampaignTargets
  by_cases h0 : (targets.take 10000).length = 0
  · rw [if_pos h0]
    rw [List.length_eq_zero] at h0
    rw [h0]
    exact ⟨fun h => Except.noConfusion h, fun h => absurd h (List.not_mem_nil _)⟩
  · rw [if_neg h0]
    by_cases hc : (targets.take 10000).contains phone = true
    · rw [if_pos hc]
      exact ⟨fun _ => List.mem_of_elem_eq_true hc, fun _ => rfl⟩
    · rw [if_neg hc]
      exact ⟨fun h => Except.noConfusion h,
        fun hmem => absurd (List.elem_eq_true_of_mem hmem) hc⟩

/-- The registered target list of a campaign with 10001 targets:
10000 entries created first, then one more phone number. -/
def bigTargets : List String := List.replicate 10000 "a" ++ ["b"]

theorem bigTargets_take : bigTargets.take 10000 = List.replicate 10000 "a" :=
  List.take_left' (List.length_replicate 10000 "a")

theorem contains_replicate_a (n : ℕ) :
    (List.replicate n ("a")).contains ("b") = false := by
  by_contra h
  rw [Bool.not_eq_false] at h
  have hmem := List.mem_of_elem_eq_true h
  rw [List.mem_replicate] at hmem
  exact absurd hmem.2 (by decide)

/-- Counterexample for C9: in a campaign with 10001 registered
targets, the last registered phone number is rejected as a
validation error because validatePhoneInCampaignTargets lists at
most 10000 targets. -/
theorem triggerCall_rejects_registered_target :
    ("b" ∈ bigTargets) ∧
      triggerCall ⟨true, bigTargets, true⟩ ⟨[], ⟨0, 0, 0, 0, 0, 0⟩, []⟩ 7 "b" 1 0 =
        (⟨[], ⟨0, 0, 0, 0, 0, 0⟩, []⟩,
          .error ("validation: phone number is not part of the registered target list")) := by
  constructor
  · exact List.mem_append.mpr (Or.inr (List.mem_singleton.mpr rfl))
  · have hval : validatePhoneInCampaignTargets bigTargets ("b") =
        .error ("validation: phone number is not part of the registered target list") := by
      unfold validatePhoneInCampaignTargets
      rw [bigTargets_take]
      rw [if_neg (by rw [List.length_replicate]; norm_num),
        if_neg (by rw [contains_replicate_a]; exact Bool.false_ne_true)]
    unfold triggerCall
    rw [if_neg (by decide)]
    rw [hval]
    rfl

/-- Claim C9 (amended): TriggerCall accepts a phone number exactly
when it is among the first 10000 registered targets of the
campaign in creation order: validation succeeds iff the phone is
on that first page, a phone not on it (including the case of no
targets at all) makes TriggerCall return an error with the state
untouched, and a phone on it is accepted.  A campaign with more
than 10000 targets can therefore reject a registered number. -/
theorem triggerCall_validates_phone :
    (∀ (targets : List String) (phone : String),
      validatePhoneInCampaignTargets targets phone = .ok () ↔
        phone ∈ targets.take 10000) ∧
    (∀ (env : CallSvcEnv) (st : CallSvcState) (cid : ℕ) (phone : String)
        (newId : ℕ) (now : ℤ),
      phone ≠ "" → env.campaignExists = true →
      phone ∉ env.targets.take 10000 →
      (triggerCall env st cid phone newId now).1 = st ∧
        ∃ e, (triggerCall env st cid phone newId now).2 = .error e) ∧
    (∀ (env : CallSvcEnv) (st : CallSvcState) (cid : ℕ) (phone : String)
        (newId : ℕ) (now : ℤ),
      phone ≠ "" → env.campaignExists = true → env.dispatchOk = true →
      phone ∈ env.targets.take 10000 →
      (triggerCall env st cid phone newId now).2 =
        .ok ⟨newId, cid, phone, "queued", 0, now⟩) := by
  refine ⟨validatePhone_ok_iff, ?_, ?_⟩
  · intro env st cid phone newId now hphone hex hmem
    unfold triggerCall
    rw [if_neg hphone, hex]
    cases hval : validatePhoneInCampaignTargets env.targets phone with
    | ok u =>
      cases u
      exact absurd ((validatePhone_ok_iff env.targets phone).mp hval) hmem
    | error e => exact ⟨rfl, e, rfl⟩
  · intro env st cid phone newId now hphone hex hdisp hmem
    have hval : validatePhoneInCampaignTargets env.targets phone = .ok () :=
      (validatePhone_ok_iff env.targets phone).mpr hmem
    unfold triggerCall
    rw [if_neg hphone, hex, hval]
    simp only [Bool.not_true, Bool.false_eq_true, if_false, hdisp, if_true]

/-- Witness for C9 (amended): a two-target campaign accepts its
second target and rejects an unregistered number with the state
untouched. -/
theorem triggerCall_validates_phone_witness :
    ((triggerCall ⟨true, ["x", "y"], true⟩ ⟨[], ⟨0, 0, 0, 0, 0, 0⟩, []⟩ 7 "z" 5 0).1 =
        ⟨[], ⟨0, 0, 0, 0, 0, 0⟩, []⟩ ∧
      ∃ e, (triggerCall ⟨true, ["x", "y"], true⟩
        ⟨[], ⟨0, 0, 0, 0, 0, 0⟩, []⟩ 7 "z" 5 0).2 = .error e) ∧
    (triggerCall ⟨true, ["x", "y"], true⟩ ⟨[], ⟨0, 0, 0, 0, 0, 0⟩, []⟩ 7 "y" 5 0).2 =
      .ok ⟨5, 7, "y", "queued", 0, 0⟩ :=
  ⟨triggerCall_validates_phone.2.1 ⟨true, ["x", "y"], true⟩
      ⟨[], ⟨0, 0, 0, 0, 0, 0⟩, []⟩ 7 "z" 5 0 (by decide) rfl (by decide),
    triggerCall_validates_phone.2.2 ⟨true, ["x", "y"], true⟩
      ⟨[], ⟨0, 0, 0, 0, 0, 0⟩, []⟩ 7 "y" 5 0 (by decide) rfl rfl (by decide)⟩

/-- Claim C10: when the dispatch publish fails after the call row
and the {total plus one, pending plus one} delta are persisted,
TriggerCall returns an error having compensated only with a
pending minus one delta: the call row stays persisted, total stays
incremented, pending is back to its initial value, and nothing was
dispatched. -/
theorem triggerCall_dispatch_failure_not_atomic
    (env : CallSvcEnv) (st : CallSvcState) (cid : ℕ) (phone : String)
    (newId : ℕ) (now : ℤ)
    (hex : env.campaignExists = true) (hdisp : env.dispatchOk = false)
    (hphone : phone ≠ "") (hmem : phone ∈ env.targets.take 10000)
    (hcid : cid ≠ 0) :
    (triggerCall env st cid phone newId now).2 =
        .error ("call service: dispatch call") ∧
      (triggerCall env st cid phone newId now).1.calls =
        st.calls ++ [⟨newId, cid, phone, "queued", 0, now⟩] ∧
      (triggerCall env st cid phone newId now).1.stats.total =
        st.stats.total + 1 ∧
      (triggerCall env st cid phone newId now).1.stats.pending =
        st.stats.pending ∧
      (triggerCall env st cid phone newId now).1.stats.completed =
        st.stats.completed ∧
      (triggerCall env st cid phone newId now).1.stats.failed =
        st.stats.failed ∧
      (triggerCall env st cid phone newId now).1.dispatched = st.dispatched := by
  have hval : validatePhoneInCampaignTargets env.targets phone = .ok () :=
    (validatePhone_ok_iff env.targets phone).mpr hmem
  have hred : triggerCall env st cid phone newId now =
      ({ st with
          calls := st.calls ++ [⟨newId, cid, phone, "queued", 0, now⟩],
          stats := applyDelta (applyDelta st.stats
            { zeroDelta with total := 1, pending := 1 })
            { zeroDelta with pending := -1 } },
        .error ("call service: dispatch call")) := by
    unfold triggerCall
    rw [if_neg hphone, hex, hval]
    simp only [Bool.not_true, Bool.false_eq_true, if_false, hdisp, if_pos hcid]
  rw [hred]
  refine ⟨rfl, rfl, ?_, ?_, ?_, ?_, rfl⟩ <;>
    simp [applyDelta, zeroDelta]

/-- Witness for C10: a concrete trigger whose dispatch fails
leaves the call row and the incremented total behind. -/
theorem triggerCall_dispatch_failure_not_atomic_witness :
    (triggerCall ⟨true, ["y"], false⟩ ⟨[], ⟨0, 0, 0, 0, 0, 0⟩, []⟩ 7 "y" 5 0).2 =
        .error ("call service: dispatch call") ∧
      (triggerCall ⟨true, ["y"], false⟩ ⟨[], ⟨0, 0, 0, 0, 0, 0⟩, []⟩ 7 "y" 5 0).1.calls =
        [] ++ [⟨5, 7, "y", "queued", 0, 0⟩] ∧
      (triggerCall ⟨true, ["y"], false⟩ ⟨[], ⟨0, 0, 0, 0, 0, 0⟩, []⟩ 7 "y" 5 0).1.stats.total =
        0 + 1 ∧
      (triggerCall ⟨true, ["y"], false⟩ ⟨[], ⟨0, 0, 0, 0, 0, 0⟩, []⟩ 7 "y" 5 0).1.stats.pending =
        0 ∧
      (triggerCall ⟨true, ["y"], false⟩ ⟨[], ⟨0, 0, 0, 0, 0, 0⟩, []⟩ 7 "y" 5 0).1.stats.completed =
        0 ∧
      (triggerCall ⟨true, ["y"], false⟩ ⟨[], ⟨0, 0, 0, 0, 0, 0⟩, []⟩ 7 "y" 5 0).1.stats.failed =
        0 ∧
      (triggerCall ⟨true, ["y"], false⟩ ⟨[], ⟨0, 0, 0, 0, 0, 0⟩, []⟩ 7 "y" 5 0).1.dispatched =
        [] :=
  triggerCall_dispatch_failure_not_atomic ⟨true, ["y"], false⟩
    ⟨[], ⟨0, 0, 0, 0, 0, 0⟩, []⟩ 7 "y" 5 0 rfl rfl (by decide) (by decide)
    (by decide)

/-! Section: Message envelopes (internal/queue/messages.go) -/

/-- DispatchMessage: the unit of work on the dispatch topic.
Jitter is a float in Go, modelled as a rational; metadata is an
opaque key/value list. -/
structure DispatchMessage where
  callId : ℕ
  campaignId : ℕ
  phone : String
  attempt : ℤ
  maxAttempts : ℤ
  retryBaseMs : ℤ
  retryMaxMs : ℤ
  retryJitter : ℚ
  concurrencyLimit : ℤ
  metadata : List (String × String)
  enqueuedAt : ℤ
deriving DecidableEq, Repr

/-- StatusMessage: the outcome of one attempt. -/
structure StatusMessage where
  callId : ℕ
  campaignId : ℕ
  phone : String
  status : String
  attempt : ℤ
  maxAttempts : ℤ
  retryable : Bool
  retryBaseMs : ℤ
  retryMaxMs : ℤ
  retryJitter : ℚ
  concurrencyLimit : ℤ
  durationMs : ℤ
  error : String
  occurredAt : ℤ
  nextAttempt : Option ℤ
  metadata : List (String × String)
deriving DecidableEq, Repr

/-- RetryMessage: a dispatch message embedded with its scheduled
next attempt. -/
structure RetryMessage where
  dispatch : DispatchMessage
  maxAttempts : ℤ
  nextAttempt : ℤ
deriving DecidableEq, Repr

/-! Section: Retry scheduler (internal/queue/retry_scheduler.go:
ScheduleRetry) -/

/-- RetryScheduler.ScheduleRetry: the attempt index selects
writers[attempt-1]; an attempt at most 0 or above the number of
configured retry topics is rejected with an out-of-range error.
The ok value names the 1-based tier the message is written to. -/
def scheduleRetry (numTiers : ℕ) (attempt : ℤ) (msg : RetryMessage) :
    Except String (ℕ × RetryMessage) :=
  if attempt ≤ 0 ∨ attempt > numTiers then
    .error ("retry scheduler: attempt out of range")
  else .ok (attempt.toNat, msg)

/-! Section: Status worker (src/unnamed status worker: Worker.Run) -/

/-- The stats delta the status worker computes for one message:
retries plus one when attempt exceeds one; completed statuses add
completed plus one and pending minus one; failed statuses add
failed plus one and pending minus one only when not retryable. -/
def statusStatsDelta (msg : StatusMessage) : StatsDelta :=
  let d1 := if msg.attempt > 1 then { zeroDelta with retries := 1 } else zeroDelta
  if msg.status = "completed" then { d1 with completed := 1, pending := -1 }
  else if msg.status = "failed" then
    (if !msg.retryable then { d1 with failed := 1, pending := -1 } else d1)
  else d1

/-- The RetryMessage the status worker builds: the dispatch
message carried verbatim except attempt incremented by one and
enqueued_at set to the scheduled next attempt. -/
def buildRetryMessage (msg : StatusMessage) (next : ℤ) : RetryMessage :=
  ⟨⟨msg.callId, msg.campaignId, msg.phone, msg.attempt + 1, msg.maxAttempts,
    msg.retryBaseMs, msg.retryMaxMs, msg.retryJitter, msg.concurrencyLimit,
    msg.metadata, next⟩, msg.maxAttempts, next⟩

/-- Observable effects of the status worker on one decoded
StatusMessage. -/
structure StatusEffects where
  callUpdate : ℕ × String × ℤ
  attemptAppended : ℕ × ℤ × String
  deltaApplied : Option StatsDelta
  retry : Option (Except String (ℕ × RetryMessage))
  committed : Bool
deriving Repr

/-- One iteration of the status worker loop after a successful
decode: update the call row, append the attempt, apply the stats
delta when the campaign id is not nil, schedule the retry when the
message is retryable and carries a next attempt, then commit.
Errors from any step are logged and do not stop the iteration. -/
def statusWorkerStep (numTiers : ℕ) (msg : StatusMessage) : StatusEffects :=
  { callUpdate := (msg.callId, msg.status, msg.attempt),
    attemptAppended := (msg.callId, msg.attempt, msg.status),
    deltaApplied :=
      if msg.campaignId ≠ 0 then some (statusStatsDelta msg) else none,
    retry :=
      if msg.retryable then
        match msg.nextAttempt with
        | some next => some (scheduleRetry numTiers msg.attempt (buildRetryMessage msg next))
        | none => none
      else none,
    committed := true }

/-- Counterexample for C3: with one configured retry tier, a
retryable status at attempt 2 with a next_attempt is not routed to
tier min(2, 1) = 1; ScheduleRetry rejects it as out of range and
nothing is published. -/
theorem statusWorker_retry_above_tiers_errors :
    (statusWorkerStep 1
        ⟨9, 7, "p", "failed", 2, 3, true, 1000, 10000, 0, 2, 0, "busy", 50,
          some 100, []⟩).retry =
      some (.error ("retry scheduler: attempt out of range")) ∧
    (statusWorkerStep 1
        ⟨9, 7, "p", "failed", 2, 3, true, 1000, 10000, 0, 2, 0, "busy", 50,
          some 100, []⟩).retry ≠
      some (.ok (min 2 1, buildRetryMessage
        ⟨9, 7, "p", "failed", 2, 3, true, 1000, 10000, 0, 2, 0, "busy", 50,
          some 100, []⟩ 100)) := by
  refine ⟨rfl, ?_⟩
  intro h
  rw [show (statusWorkerStep 1
      ⟨9, 7, "p", "failed", 2, 3, true, 1000, 10000, 0, 2, 0, "busy", 50,
        some 100, []⟩).retry =
      some (.error ("retry scheduler: attempt out of range")) from rfl] at h
  exact Except.noConfusion (Option.some.inj h)

/-- Claim C3 (amended): a retryable status with a next_attempt is
published to retry tier k = attempt when 1 ≤ attempt ≤ N, the
RetryMessage carrying the dispatch message with attempt
incremented by one and both enqueued_at and next_attempt set to
the scheduled instant; when attempt exceeds N, ScheduleRetry
returns an out-of-range error and no retry is published. -/
theorem statusWorker_retry_routing (numTiers : ℕ) (msg : StatusMessage)
    (next : ℤ) (hr : msg.retryable = true)
    (hnext : msg.nextAttempt = some next) :
    (1 ≤ msg.attempt → msg.attempt ≤ (numTiers : ℤ) →
      (statusWorkerStep numTiers msg).retry =
        some (.ok (msg.attempt.toNat, buildRetryMessage msg next))) ∧
    ((numTiers : ℤ) < msg.attempt →
      (statusWorkerStep numTiers msg).retry =
        some (.error ("retry scheduler: attempt out of range"))) ∧
    (buildRetryMessage msg next).dispatch.attempt = msg.attempt + 1 ∧
    (buildRetryMessage msg next).nextAttempt = next ∧
    (buildRetryMessage msg next).dispatch.enqueuedAt = next := by
  have hretry : (statusWorkerStep numTiers msg).retry =
      some (scheduleRetry numTiers msg.attempt (buildRetryMessage msg next)) := by
    show (if msg.retryable then _ else _) = _
    rw [hr, if_pos rfl, hnext]
  refine ⟨?_, ?_, rfl, rfl, rfl⟩
  · intro h1 h2
    rw [hretry]
    unfold scheduleRetry
    rw [if_neg]
    push_neg
    exact ⟨by omega, h2⟩
  · intro hgt
    rw [hretry]
    unfold scheduleRetry
    rw [if_pos (Or.inr hgt)]

/-- Witness for C3 (amended): three tiers, a retryable failure at
attempt 2 goes to tier 2 with the inner attempt bumped to 3. -/
theorem statusWorker_retry_routing_witness :
    (statusWorkerStep 3
        ⟨9, 7, "p", "failed", 2, 3, true, 1000, 10000, 0, 2, 0, "busy", 50,
          some 100, []⟩).retry =
      some (.ok (2, buildRetryMessage
        ⟨9, 7, "p", "failed", 2, 3, true, 1000, 10000, 0, 2, 0, "busy", 50,
          some 100, []⟩ 100)) :=
  (statusWorker_retry_routing 3
      ⟨9, 7, "p", "failed", 2, 3, true, 1000, 10000, 0, 2, 0, "busy", 50,
        some 100, []⟩ 100 rfl rfl).1 (by decide) (by decide)

theorem statusStatsDelta_retries (msg : StatusMessage) :
    (statusStatsDelta msg).retries = (if msg.attempt > 1 then 1 else 0) := by
  unfold statusStatsDelta
  by_cases hatt : msg.attempt > 1 <;>
    by_cases hcomp : msg.status = "completed" <;>
    by_cases hfail : msg.status = "failed" <;>
    cases hrb : msg.retryable <;>
    simp [hatt, hcomp, hfail, hrb, zeroDelta]

theorem statusStatsDelta_untouched (msg : StatusMessage) :
    (statusStatsDelta msg).total = 0 ∧ (statusStatsDelta msg).inProgress = 0 := by
  unfold statusStatsDelta
  by_cases hatt : msg.attempt > 1 <;>
    by_cases hcomp : msg.status = "completed" <;>
    by_cases hfail : msg.status = "failed" <;>
    cases hrb : msg.retryable <;>
    simp [hatt, hcomp, hfail, hrb, zeroDelta]

theorem statusStatsDelta_completed (msg : StatusMessage)
    (h : msg.status = "completed") :
    (statusStatsDelta msg).completed = 1 ∧ (statusStatsDelta msg).pending = -1 ∧
      (statusStatsDelta msg).failed = 0 := by
  unfold statusStatsDelta
  rw [if_pos h]
  by_cases hatt : msg.attempt > 1 <;> simp [hatt, zeroDelta]

theorem statusStatsDelta_failed_final (msg : StatusMessage)
    (hf : msg.status = "failed") (hr : msg.retryable = false) :
    (statusStatsDelta msg).failed = 1 ∧ (statusStatsDelta msg).pending = -1 ∧
      (statusStatsDelta msg).completed = 0 := by
  unfold statusStatsDelta
  rw [if_neg (by rw [hf]; decide), if_pos hf, hr]
  by_cases hatt : msg.attempt > 1 <;> simp [hatt, zeroDelta]

theorem statusStatsDelta_failed_retryable (msg : StatusMessage)
    (hf : msg.status = "failed") (hr : msg.retryable = true) :
    (statusStatsDelta msg).completed = 0 ∧ (statusStatsDelta msg).failed = 0 ∧
      (statusStatsDelta msg).pending = 0 := by
  unfold statusStatsDelta
  rw [if_neg (by rw [hf]; decide), if_pos hf, hr]
  by_cases hatt : msg.attempt > 1 <;> simp [hatt, zeroDelta]

/-- Claim C8: for every consumed StatusMessage with a non-nil
campaign id the status worker applies exactly the delta: retries
plus one exactly when attempt exceeds one; completed adds
completed plus one and pending minus one; failed and not retryable
adds failed plus one and pending minus one; failed and retryable
changes no counter besides retries; total and in_progress are
never touched. -/
theorem statusWorker_stats_delta (numTiers : ℕ) (msg : StatusMessage)
    (hcid : msg.campaignId ≠ 0) :
    ∃ d, (statusWorkerStep numTiers msg).deltaApplied = some d ∧
      d.total = 0 ∧ d.inProgress = 0 ∧
      d.retries = (if msg.attempt > 1 then 1 else 0) ∧
      (msg.status = "completed" →
        d.completed = 1 ∧ d.pending = -1 ∧ d.failed = 0) ∧
      (msg.status = "failed" → msg.retryable = false →
        d.failed = 1 ∧ d.pending = -1 ∧ d.completed = 0) ∧
      (msg.status = "failed" → msg.retryable = true →
        d.completed = 0 ∧ d.failed = 0 ∧ d.pending = 0) := by
  refine ⟨statusStatsDelta msg, ?_, (statusStatsDelta_untouched msg).1,
    (statusStatsDelta_untouched msg).2, statusStatsDelta_retries msg,
    fun h => statusStatsDelta_completed msg h,
    fun hf hr => statusStatsDelta_failed_final msg hf hr,
    fun hf hr => statusStatsDelta_failed_retryable msg hf hr⟩
  show (if msg.campaignId ≠ 0 then some (statusStatsDelta msg) else none) = _
  rw [if_pos hcid]

/-- Witness for C8: a completed status at attempt 2 yields the
delta {retries 1, completed 1, pending -1}. -/
theorem statusWorker_stats_delta_witness :
    ∃ d, (statusWorkerStep 3
        ⟨9, 7, "p", "completed", 2, 3, false, 1000, 10000, 0, 2, 120, "", 50,
          none, []⟩).deltaApplied = some d ∧
      d.total = 0 ∧ d.inProgress = 0 ∧
      d.retries = (if (2 : ℤ) > 1 then 1 else 0) ∧
      ((("completed" : String) = "completed") →
        d.completed = 1 ∧ d.pending = -1 ∧ d.failed = 0) ∧
      ((("completed" : String) = "failed") → (false = false) →
        d.failed = 1 ∧ d.pending = -1 ∧ d.completed = 0) ∧
      ((("completed" : String) = "failed") → (false = true) →
        d.completed = 0 ∧ d.failed = 0 ∧ d.pending = 0) :=
  statusWorker_stats_delta 3
    ⟨9, 7, "p", "completed", 2, 3, false, 1000, 10000, 0, 2, 120, "", 50,
      none, []⟩ (by decide)

/-! Section: Call worker (src/unnamed call worker: Worker.processMessage,
Worker.computeNextAttempt) -/

/-- Truncation toward zero, the effect of the Go float64 to int64
conversion inside time.Duration arithmetic (for in-range values). -/
def truncQ (x : ℚ) : ℤ := if 0 ≤ x then ⌊x⌋ else ⌈x⌉

/-- Two's-complement wrap-around of int64, the semantics of Go's
time.Duration multiplication and addition: the literals are 2^63
and 2^64. -/
def int64wrap (x : ℤ) : ℤ :=
  (x + 9223372036854775808) % 18446744073709551616 - 9223372036854775808

/-- Worker.computeNextAttempt.  Durations are int64 nanoseconds,
so every Duration multiplication and addition goes through
int64wrap; rngVal is the value the worker's rand source returns
in [0, 1).  Base and max are scaled to nanoseconds first and the
non-positive check (defaults 2s and 2min) applies to the scaled
value, as in the source.  The exponent float 2^(attempt-1) is
exact and its int64 conversion faithful for 1 ≤ attempt ≤ 63; for
attempt at least 64 the conversion overflows and Go leaves the
result implementation-dependent — the amd64 value math.MinInt64 is
adopted here; for attempt below 1 the power is below one and
truncates to 0.  The capped delay is perturbed, when jitter is
positive, by delay times (rngVal * jitter - jitter/2); that float
product is modelled exactly over ℚ and truncated toward zero, and
the perturbed delay is floored at base.  The final addition of the
delay to the abstract instant now is left unwrapped. -/
def computeNextAttempt (msg : DispatchMessage) (now : ℤ) (rngVal : ℚ) : ℤ :=
  let base0 : ℤ := int64wrap (msg.retryBaseMs * 1000000)
  let base : ℤ := if base0 ≤ 0 then 2000000000 else base0
  let maxDelay0 : ℤ := int64wrap (msg.retryMaxMs * 1000000)
  let maxDelay : ℤ := if maxDelay0 ≤ 0 then 120000000000 else maxDelay0
  let exponent : ℤ :=
    if 1 ≤ msg.attempt ∧ msg.attempt ≤ 63 then 2 ^ (msg.attempt - 1).toNat
    else if msg.attempt ≤ 0 then 0
    else -9223372036854775808
  let delay0 : ℤ := int64wrap (exponent * base)
  let delay1 : ℤ := if delay0 > maxDelay then maxDelay else delay0
  let delay2 : ℤ :=
    if msg.retryJitter > 0 then
      let f : ℚ := rngVal * msg.retryJitter - msg.retryJitter / 2
      let jitter : ℤ := truncQ ((delay1 : ℚ) * f)
      let dj : ℤ := int64wrap (delay1 + jitter)
      if dj < base then base else dj
    else delay1
  now + delay2

/-- What the telephony provider returns: status, duration in
nanoseconds, a retryable opinion, and an error string. -/
structure ProviderResult where
  status : String
  duration : ℤ
  retryable : Bool
  error : String

/-- Observable effects of Worker.processMessage on one decoded
dispatch message: the single status message built, whether its
publish succeeded, and whether the source offset was committed. -/
structure CallWorkerEffects where
  statusMsg : StatusMessage
  publishOk : Bool
  committed : Bool

/-- Worker.processMessage after a successful decode and slot
acquisition: build the StatusMessage (retryable only below max
attempts; a transport error forces a failed status with
policy-driven retryability; retryable messages get a computed
next_attempt), attempt exactly one status publish — a failure is
only logged — and then commit the source offset. -/
def processMessage (d : DispatchMessage) (res : ProviderResult)
    (callErr : Option String) (now : ℤ) (rngVal : ℚ) (publishOk : Bool) :
    CallWorkerEffects :=
  let s0 : StatusMessage :=
    ⟨d.callId, d.campaignId, d.phone, res.status, d.attempt, d.maxAttempts,
      res.retryable && decide (d.attempt < d.maxAttempts), d.retryBaseMs,
      d.retryMaxMs, d.retryJitter, d.concurrencyLimit,
      (if res.duration > 0 then res.duration / 1000000 else 0), res.error,
      now, none, d.metadata⟩
  let s1 : StatusMessage :=
    match callErr with
    | some e =>
      if s0.error = "" then
        { s0 with
          error := e
          retryable := decide (d.attempt < d.maxAttempts)
          status := "failed" }
      else s0
    | none => s0
  let s2 : StatusMessage :=
    if s1.retryable then
      { s1 with nextAttempt := some (computeNextAttempt d now rngVal) }
    else s1
  { statusMsg := s2, publishOk := publishOk, committed := true }

/-- Counterexample for C2: a dispatch whose status publish fails
still has its source offset committed (the publish error is only
logged), so the message is not re-delivered. -/
theorem processMessage_commits_on_publish_failure :
    (processMessage ⟨9, 7, "p", 1, 3, 1000, 10000, 0, 2, [], 0⟩
        ⟨"completed", 0, false, ""⟩ none 5 0 false).publishOk = false ∧
    (processMessage ⟨9, 7, "p", 1, 3, 1000, 10000, 0, 2, [], 0⟩
        ⟨"completed", 0, false, ""⟩ none 5 0 false).committed = true := by
  exact ⟨rfl, rfl⟩

/-- Claim C2 (amended): for every decoded DispatchMessage the call
worker builds exactly one StatusMessage carrying the dispatch
identity and attempt, makes exactly one publish attempt for it,
and commits the source offset unconditionally afterwards — also
when the publish failed, in which case the failure is only logged
and the message is not re-delivered. -/
theorem processMessage_one_status_then_commit (d : DispatchMessage)
    (res : ProviderResult) (callErr : Option String) (now : ℤ) (rngVal : ℚ)
    (publishOk : Bool) :
    (processMessage d res callErr now rngVal publishOk).committed = true ∧
    (processMessage d res callErr now rngVal publishOk).publishOk = publishOk ∧
    (processMessage d res callErr now rngVal publishOk).statusMsg.callId = d.callId ∧
    (processMessage d res callErr now rngVal publishOk).statusMsg.campaignId = d.campaignId ∧
    (processMessage d res callErr now rngVal publishOk).statusMsg.attempt = d.attempt := by
  unfold processMessage
  refine ⟨rfl, rfl, ?_, ?_, ?_⟩ <;>
    cases callErr with
    | none =>
      dsimp only []
      repeat' split
      all_goals rfl
    | some e =>
      dsimp only []
      repeat' split
      all_goals rfl

theorem iteGtMin (a b : ℤ) : (if a > b then b else a) = min a b := by
  rcases le_or_lt a b with h | h
  · rw [if_neg (not_lt.mpr h), min_eq_left h]
  · rw [if_pos h, min_eq_right h.le]

theorem iteLtMax (a b : ℤ) : (if a < b then b else a) = max b a := by
  rcases lt_or_le a b with h | h
  · rw [if_pos h, max_eq_left h.le]
  · rw [if_neg (not_lt.mpr h), max_eq_right h]

theorem int64wrap_eq_self (x : ℤ) (h1 : -9223372036854775808 ≤ x)
    (h2 : x < 9223372036854775808) : int64wrap x = x := by
  unfold int64wrap
  rw [Int.emod_eq_of_lt (by omega) (by omega)]
  omega

theorem truncQ_half_bounds (D : ℤ) (f : ℚ) (hD : 0 ≤ D)
    (hf1 : -(1 / 2) ≤ f) (hf2 : f ≤ 1 / 2) :
    -D ≤ 2 * truncQ ((D : ℚ) * f) ∧ 2 * truncQ ((D : ℚ) * f) ≤ D := by
  have hDq : (0 : ℚ) ≤ (D : ℚ) := by exact_mod_cast hD
  rcases le_or_lt 0 ((D : ℚ) * f) with hpos | hneg
  · have h1 : truncQ ((D : ℚ) * f) = ⌊(D : ℚ) * f⌋ := by
      unfold truncQ
      rw [if_pos hpos]
    constructor
    · have h0 : 0 ≤ ⌊(D : ℚ) * f⌋ := Int.floor_nonneg.mpr hpos
      rw [h1]
      linarith
    · have h2 : ((⌊(D : ℚ) * f⌋ : ℤ) : ℚ) ≤ (D : ℚ) * f := Int.floor_le _
      have h3 : (D : ℚ) * f ≤ (D : ℚ) * (1 / 2) :=
        mul_le_mul_of_nonneg_left hf2 hDq
      rw [h1]
      have h4 : ((2 * ⌊(D : ℚ) * f⌋ : ℤ) : ℚ) ≤ ((D : ℤ) : ℚ) := by
        push_cast
        linarith
      exact_mod_cast h4
  · have h1 : truncQ ((D : ℚ) * f) = ⌈(D : ℚ) * f⌉ := by
      unfold truncQ
      rw [if_neg (not_le.mpr hneg)]
    constructor
    · have h2 : (D : ℚ) * f ≤ ((⌈(D : ℚ) * f⌉ : ℤ) : ℚ) := Int.le_ceil _
      have h3 : (D : ℚ) * (-(1 / 2)) ≤ (D : ℚ) * f :=
        mul_le_mul_of_nonneg_left hf1 hDq
      rw [h1]
      have h4 : ((-D : ℤ) : ℚ) ≤ ((2 * ⌈(D : ℚ) * f⌉ : ℤ) : ℚ) := by
        push_cast
        linarith
      exact_mod_cast h4
    · have h0 : ⌈(D : ℚ) * f⌉ ≤ 0 :=
        Int.ceil_le.mpr (by exact_mod_cast hneg.le)
      rw [h1]
      linarith

/-- Counterexample for C6: the delay multiplication is int64
time.Duration arithmetic and wraps: at attempt 35 with base 1000ms
and max 10000ms the product 2^34 * 10^9 ns exceeds the int64 range
and wraps to a negative delay, the max-cap does not fire, and with
jitter 0 computeNextAttempt returns now plus a negative delay
instead of now + min(base * 2^(attempt-1), max). -/
theorem computeNextAttempt_wraps_negative :
    computeNextAttempt ⟨9, 7, "p", 35, 40, 1000, 10000, 0, 2, [], 0⟩ 0 0 =
      -1266874889709551616 ∧
    computeNextAttempt ⟨9, 7, "p", 35, 40, 1000, 10000, 0, 2, [], 0⟩ 0 0 ≠
      0 + min (2 ^ ((35 : ℤ) - 1).toNat * (1000 * 1000000)) (10000 * 1000000) ∧
    computeNextAttempt ⟨9, 7, "p", 35, 40, 1000, 10000, 0, 2, [], 0⟩ 0 0 < 0 := by
  refine ⟨by decide, by decide, by decide⟩

/-- Claim C6 (amended): for positive base and max delays, attempts
in 1..63, jitter at most 1, and base, max and base * 2^(attempt-1)
small enough that the int64 nanosecond arithmetic does not
overflow (base under 2^63 ns, max and the product at most 2^62
ns), computeNextAttempt returns now plus a delay built from
D = min(base * 2^(attempt-1), max): with jitter zero the result is
exactly now + D for every rng draw (deterministic); with positive
jitter the result is now + max(base, D + trunc(D * f)) for the
draw-determined f = rngVal * jitter - jitter / 2, which lies in
[-jitter/2, jitter/2); and when max equals base and jitter is zero
the delay collapses to the constant base.  Outside those bounds
the int64 multiplication wraps and the computed delay can be
negative. -/
theorem computeNextAttempt_backoff (msg : DispatchMessage) (now : ℤ)
    (rngVal : ℚ) (hbase : 0 < msg.retryBaseMs) (hmax : 0 < msg.retryMaxMs)
    (hatt : 1 ≤ msg.attempt) (hatt63 : msg.attempt ≤ 63)
    (hjit1 : msg.retryJitter ≤ 1)
    (hbase63 : msg.retryBaseMs * 1000000 < 9223372036854775808)
    (hmax62 : msg.retryMaxMs * 1000000 ≤ 4611686018427387904)
    (hprod62 : 2 ^ (msg.attempt - 1).toNat * (msg.retryBaseMs * 1000000) ≤
      4611686018427387904)
    (hr0 : 0 ≤ rngVal) (hr1 : rngVal < 1) :
    (msg.retryJitter = 0 →
      computeNextAttempt msg now rngVal =
        now + min (2 ^ (msg.attempt - 1).toNat * (msg.retryBaseMs * 1000000))
          (msg.retryMaxMs * 1000000)) ∧
    (0 < msg.retryJitter →
      ∃ f : ℚ, -(msg.retryJitter / 2) ≤ f ∧ f < msg.retryJitter / 2 ∧
        computeNextAttempt msg now rngVal =
          now + max (msg.retryBaseMs * 1000000)
            (min (2 ^ (msg.attempt - 1).toNat * (msg.retryBaseMs * 1000000))
                (msg.retryMaxMs * 1000000) +
              truncQ (((min (2 ^ (msg.attempt - 1).toNat *
                  (msg.retryBaseMs * 1000000))
                  (msg.retryMaxMs * 1000000) : ℤ) : ℚ) * f))) ∧
    (msg.retryMaxMs = msg.retryBaseMs → msg.retryJitter = 0 →
      computeNextAttempt msg now rngVal =
        now + msg.retryBaseMs * 1000000) := by
  have hBpos : (0 : ℤ) < msg.retryBaseMs * 1000000 :=
    mul_pos hbase (by norm_num)
  have hMpos : (0 : ℤ) < msg.retryMaxMs * 1000000 :=
    mul_pos hmax (by norm_num)
  have hwB : int64wrap (msg.retryBaseMs * 1000000) =
      msg.retryBaseMs * 1000000 :=
    int64wrap_eq_self _ (by linarith) hbase63
  have hwM : int64wrap (msg.retryMaxMs * 1000000) =
      msg.retryMaxMs * 1000000 :=
    int64wrap_eq_self _ (by linarith) (by linarith)
  have hEpos : (0 : ℤ) < 2 ^ (msg.attempt - 1).toNat :=
    pow_pos (by norm_num) _
  have hPpos : (0 : ℤ) <
      2 ^ (msg.attempt - 1).toNat * (msg.retryBaseMs * 1000000) :=
    mul_pos hEpos hBpos
  have hwP : int64wrap
        (2 ^ (msg.attempt - 1).toNat * (msg.retryBaseMs * 1000000)) =
      2 ^ (msg.attempt - 1).toNat * (msg.retryBaseMs * 1000000) :=
    int64wrap_eq_self _ (by linarith) (by linarith)
  have hdet : msg.retryJitter = 0 →
      computeNextAttempt msg now rngVal =
        now + min (2 ^ (msg.attempt - 1).toNat * (msg.retryBaseMs * 1000000))
          (msg.retryMaxMs * 1000000) := by
    intro hj
    unfold computeNextAttempt
    dsimp only []
    rw [hwB, if_neg (not_le.mpr hBpos), hwM, if_neg (not_le.mpr hMpos),
      if_pos (And.intro hatt hatt63), hwP, iteGtMin, hj,
      if_neg (lt_irrefl (0 : ℚ))]
  refine ⟨hdet, ?_, ?_⟩
  · intro hjpos
    have hDpos : (0 : ℤ) <
        min (2 ^ (msg.attempt - 1).toNat * (msg.retryBaseMs * 1000000))
          (msg.retryMaxMs * 1000000) := lt_min hPpos hMpos
    have hD62 :
        min (2 ^ (msg.attempt - 1).toNat * (msg.retryBaseMs * 1000000))
          (msg.retryMaxMs * 1000000) ≤ 4611686018427387904 :=
      le_trans (min_le_left _ _) hprod62
    have hrj0 : 0 ≤ rngVal * msg.retryJitter := mul_nonneg hr0 hjpos.le
    have hrjlt : rngVal * msg.retryJitter < msg.retryJitter := by
      have h := mul_lt_mul_of_pos_right hr1 hjpos
      linarith
    have hf1 : -(msg.retryJitter / 2) ≤
        rngVal * msg.retryJitter - msg.retryJitter / 2 := by linarith
    have hf2 : rngVal * msg.retryJitter - msg.retryJitter / 2 <
        msg.retryJitter / 2 := by linarith
    have htb := truncQ_half_bounds
      (min (2 ^ (msg.attempt - 1).toNat * (msg.retryBaseMs * 1000000))
        (msg.retryMaxMs * 1000000))
      (rngVal * msg.retryJitter - msg.retryJitter / 2) hDpos.le
      (by linarith) (by linarith)
    have hwDJ : int64wrap
          (min (2 ^ (msg.attempt - 1).toNat * (msg.retryBaseMs * 1000000))
              (msg.retryMaxMs * 1000000) +
            truncQ (((min (2 ^ (msg.attempt - 1).toNat *
                (msg.retryBaseMs * 1000000))
                (msg.retryMaxMs * 1000000) : ℤ) : ℚ) *
              (rngVal * msg.retryJitter - msg.retryJitter / 2))) =
        min (2 ^ (msg.attempt - 1).toNat * (msg.retryBaseMs * 1000000))
            (msg.retryMaxMs * 1000000) +
          truncQ (((min (2 ^ (msg.attempt - 1).toNat *
              (msg.retryBaseMs * 1000000))
              (msg.retryMaxMs * 1000000) : ℤ) : ℚ) *
            (rngVal * msg.retryJitter - msg.retryJitter / 2)) :=
      int64wrap_eq_self _ (by linarith [htb.1]) (by linarith [htb.2])
    refine ⟨rngVal * msg.retryJitter - msg.retryJitter / 2, hf1, hf2, ?_⟩
    unfold computeNextAttempt
    dsimp only []
    rw [hwB, if_neg (not_le.mpr hBpos), hwM, if_neg (not_le.mpr hMpos),
      if_pos (And.intro hatt hatt63), hwP, iteGtMin, if_pos hjpos, hwDJ,
      iteLtMax]
  · intro hmb hj
    have hE1 : (1 : ℤ) ≤ 2 ^ (msg.attempt - 1).toNat := by
      simpa using Int.add_one_le_iff.mpr hEpos
    rw [hdet hj, hmb,
      min_eq_right (le_mul_of_one_le_left hBpos.le hE1)]

/-- Witness for C6 (amended): base 1s, max 10s, attempt 3, jitter
one half, rng draw one quarter; all values well inside the int64
range. -/
theorem computeNextAttempt_backoff_witness :
    ((1 : ℚ) / 2 = 0 →
      computeNextAttempt ⟨9, 7, "p", 3, 5, 1000, 10000, 1 / 2, 2, [], 0⟩ 0 (1 / 4) =
        0 + min (2 ^ ((3 : ℤ) - 1).toNat * (1000 * 1000000)) (10000 * 1000000)) ∧
    (0 < (1 : ℚ) / 2 →
      ∃ f : ℚ, -((1 : ℚ) / 2 / 2) ≤ f ∧ f < (1 : ℚ) / 2 / 2 ∧
        computeNextAttempt ⟨9, 7, "p", 3, 5, 1000, 10000, 1 / 2, 2, [], 0⟩ 0 (1 / 4) =
          0 + max (1000 * 1000000)
            (min (2 ^ ((3 : ℤ) - 1).toNat * (1000 * 1000000)) (10000 * 1000000) +
              truncQ (((min (2 ^ ((3 : ℤ) - 1).toNat * (1000 * 1000000))
                  (10000 * 1000000) : ℤ) : ℚ) * f))) ∧
    ((10000 : ℤ) = 1000 → (1 : ℚ) / 2 = 0 →
      computeNextAttempt ⟨9, 7, "p", 3, 5, 1000, 10000, 1 / 2, 2, [], 0⟩ 0 (1 / 4) =
        0 + 1000 * 1000000) :=
  computeNextAttempt_backoff ⟨9, 7, "p", 3, 5, 1000, 10000, 1 / 2, 2, [], 0⟩ 0
    (1 / 4) (by norm_num) (by norm_num) (by norm_num) (by norm_num)
    (by norm_num) (by decide) (by decide) (by decide) (by norm_num)
    (by norm_num)
end OutboundCampaign
